import Mathlib

/-!
Shallow embedding of two Micro-Manager device adapters:
  * `NewportZStage` (DeviceAdapters/NewportESP/Newport.cpp) — a serial stage driver;
  * `FakeCamera` (DeviceAdapters/FastCamera/FakeCamera.cpp/.h) — a simulated camera
    with a background live-acquisition loop (`LiveThread::svc`).
Doubles are modelled as `ℚ`, C `int`/`long` return codes and counters as `Int`,
the host-provided serial transport and image sink as scripted behaviours.
-/

/-- Return code for success (`DEVICE_OK` in MMDeviceConstants.h; its value 0 is
what the C++ comparisons `ret != DEVICE_OK` test against). -/
def DEVICE_OK : Int := 0

/-- Generic device error code (`DEVICE_ERR`); only its being nonzero matters here. -/
def DEVICE_ERR : Int := 1

/-- Sink result meaning the circular buffer is full (`DEVICE_BUFFER_OVERFLOW`);
only its distinctness from the other codes is relied on. -/
def DEVICE_BUFFER_OVERFLOW : Int := 22

/-- Result of starting an acquisition while one is running
(`DEVICE_CAMERA_BUSY_ACQUIRING`); only its distinctness matters. -/
def DEVICE_CAMERA_BUSY_ACQUIRING : Int := 30

/-- Modelled from the spec: `ERR_POSITION_BEYOND_LIMITS` is declared in Newport.h,
which is not part of the given sources; only its distinctness from the transport
codes and from `DEVICE_OK` is used. -/
def ERR_POSITION_BEYOND_LIMITS : Int := 10002

/-- Modelled from the spec: `ERR_TIMEOUT` from Newport.h (reserved, never returned
by the code under study). -/
def ERR_TIMEOUT : Int := 10003

/-- Modelled from the spec: `CONTROLLER_ERROR` from Newport.h, returned by
`GetError` for a genuine controller fault. -/
def CONTROLLER_ERROR : Int := 10004

/-- Modelled from the spec: the host serial transport
(`SendSerialCommand`/`GetSerialAnswer`) is an external collaborator. One
behaviour slot per primitive call: `(send result, (receive result, received line))`;
the slot index advances by one on every primitive call, and every command handed
to a send is logged in `sent`. -/
structure SerialPort where
  behav : Nat → Int × (Int × String)
  k : Nat
  sent : List String

/-- Modelled from the spec: `send(port, command, terminator)` — synchronous,
fallible; returns the scripted result code and records the command. -/
def SendSerialCommand (cmd : String) (p : SerialPort) : Int × SerialPort :=
  ((p.behav p.k).1, { p with k := p.k + 1, sent := p.sent ++ [cmd] })

/-- Modelled from the spec: `receive(port, terminator) → line` — synchronous,
fallible; returns the scripted result code and line. -/
def GetSerialAnswer (p : SerialPort) : Int × String × SerialPort :=
  ((p.behav p.k).2.1, (p.behav p.k).2.2, { p with k := p.k + 1 })

/-- State of one `NewportZStage` instance (the fields the protocol code reads). -/
structure NewportZStage where
  conversionFactor_ : ℚ
  lowerLimit_ : ℚ
  upperLimit_ : ℚ
  cAddress_ : Int
  stepSizeUm_ : ℚ

/-- Rendering of a rational for an outgoing command string; stands in for the
C++ `ostringstream` formatting of a `double` (the exact numeral text is never
relied on by a theorem). -/
def ratStr (q : ℚ) : String := toString q.num ++ "/" ++ toString q.den

/-- `NewportZStage::MakeCommand`: prepend the controller address to the mnemonic. -/
def MakeCommand (s : NewportZStage) (cmd : String) : String :=
  toString s.cAddress_ ++ cmd

/-- C `isspace` on the default locale, as skipped by `atof`/`strtod`. -/
def isSpaceC (c : Char) : Bool :=
  c = ' ' || c = '\t' || c = '\n' || c = '\x0b' || c = '\x0c' || c = '\r'

/-- Value of a digit string, most significant first. -/
def digitsToNat (cs : List Char) : Nat :=
  cs.foldl (fun a c => 10 * a + (c.toNat - 48)) 0

/-- Exponent part accepted by `strtod` after the mantissa: `e`/`E`, optional
sign, digits; if no digits follow, the exponent is not part of the converted
prefix and contributes 0. -/
def atofExp (cs : List Char) : Int :=
  match cs with
  | 'e' :: rest =>
    match rest with
    | '+' :: t => if (t.takeWhile Char.isDigit).isEmpty then 0 else (digitsToNat (t.takeWhile Char.isDigit) : Int)
    | '-' :: t => if (t.takeWhile Char.isDigit).isEmpty then 0 else -(digitsToNat (t.takeWhile Char.isDigit) : Int)
    | t => if (t.takeWhile Char.isDigit).isEmpty then 0 else (digitsToNat (t.takeWhile Char.isDigit) : Int)
  | 'E' :: rest =>
    match rest with
    | '+' :: t => if (t.takeWhile Char.isDigit).isEmpty then 0 else (digitsToNat (t.takeWhile Char.isDigit) : Int)
    | '-' :: t => if (t.takeWhile Char.isDigit).isEmpty then 0 else -(digitsToNat (t.takeWhile Char.isDigit) : Int)
    | t => if (t.takeWhile Char.isDigit).isEmpty then 0 else (digitsToNat (t.takeWhile Char.isDigit) : Int)
  | _ => 0

/-- Sign character consumed by `strtod`: returns (sign, remaining input). -/
def atofSign (cs : List Char) : Bool × List Char :=
  match cs with
  | '+' :: t => (false, t)
  | '-' :: t => (true, t)
  | t => (false, t)

/-- Mantissa decomposition performed by `strtod`: leading whitespace skipped,
optional sign, integer digits, optional point and fraction digits.  Returns
(negative?, integer digits, fraction digits, input past the mantissa). -/
def atofParts (s : String) : Bool × List Char × List Char × List Char :=
  let cs := s.data.dropWhile isSpaceC
  let sc := atofSign cs
  let intDigits := sc.2.takeWhile Char.isDigit
  let rest1 := sc.2.dropWhile Char.isDigit
  match rest1 with
  | '.' :: t => (sc.1, intDigits, t.takeWhile Char.isDigit, t.dropWhile Char.isDigit)
  | _ => (sc.1, intDigits, [], rest1)

/-- C `atof` on decimal input: if no digit occurs in the mantissa no conversion
is performed and the result is 0, else the signed mantissa scaled by the
exponent.  (Hexadecimal, `inf` and `nan` forms of C99 `strtod` are outside the
replies this protocol meets and are not modelled.) -/
def atof (s : String) : ℚ :=
  let q := atofParts s
  if q.2.1.isEmpty && q.2.2.1.isEmpty then 0
  else
    let mant : ℚ := (digitsToNat (q.2.1 ++ q.2.2.1) : ℚ) / ((10 : ℚ) ^ q.2.2.1.length)
    (if q.1 then -mant else mant) * (10 : ℚ) ^ atofExp q.2.2.2

/-- Whether `atof` performs a conversion on `s` (some mantissa digit is
present); this is the negation of the guard inside `atof`. -/
def atofParses (s : String) : Bool :=
  !((atofParts s).2.1.isEmpty && (atofParts s).2.2.1.isEmpty)

/-- `answer.substr(cmd.size(), 1)`: one character of the reply just past the
echoed command prefix (empty when the reply is not that long; the C++ `substr`
would throw only for `pos > size()`, a case never reached by these theorems). -/
def substrAfter (answer cmd : String) : String :=
  ⟨(answer.data.drop cmd.data.length).take 1⟩

/-- `NewportZStage::Busy`: send `TS`, read a line, test bit 2 of its first
character.  The C++ function has return type `bool`, so the early
`return ret;` on a transport failure coerces the nonzero error code to `true`. -/
def Busy (s : NewportZStage) (p : SerialPort) : Bool × SerialPort :=
  let r1 := SendSerialCommand (MakeCommand s "TS") p
  if r1.1 ≠ DEVICE_OK then (r1.1 != 0, r1.2)
  else
    let r2 := GetSerialAnswer r1.2
    if r2.1 ≠ DEVICE_OK then (r2.1 != 0, r2.2.2)
    else
      let return_signal := r2.2.1.data.headD (Char.ofNat 0)
      ((return_signal.toNat &&& 4) != 0, r2.2.2)

/-- `NewportZStage::WaitForBusy`: poll `Busy()` until it reports not busy; the
C++ loop has no bound (the timeout code is commented out), so the model takes
fuel and returns `none` when the fuel is exhausted with the stage still busy. -/
def WaitForBusy (s : NewportZStage) (fuel : Nat) (p : SerialPort) :
    Option (Int × SerialPort) :=
  match fuel with
  | 0 => none
  | fuel + 1 =>
    let b := Busy s p
    if b.1 then WaitForBusy s fuel b.2 else some (DEVICE_OK, b.2)

/-- `NewportZStage::SetOrigin`: send `OR`, then wait for the busy flag to clear. -/
def SetOrigin (s : NewportZStage) (fuel : Nat) (p : SerialPort) :
    Option (Int × SerialPort) :=
  let r := SendSerialCommand (MakeCommand s "OR") p
  if r.1 ≠ DEVICE_OK then some (r.1, r.2)
  else WaitForBusy s fuel r.2

/-- `NewportZStage::SetPositionUm`: divide by the conversion factor, reject the
request when the native value falls outside `[lowerLimit_, upperLimit_]`
(without any serial traffic), otherwise send `PA<value>`. -/
def SetPositionUm (s : NewportZStage) (pos : ℚ) (p : SerialPort) :
    Int × SerialPort :=
  let pos' := pos / s.conversionFactor_
  if pos' > s.upperLimit_ ∨ s.lowerLimit_ > pos' then (ERR_POSITION_BEYOND_LIMITS, p)
  else
    let r := SendSerialCommand (MakeCommand s "PA" ++ ratStr pos') p
    if r.1 ≠ DEVICE_OK then (r.1, r.2) else (DEVICE_OK, r.2)

/-- `NewportZStage::SetRelativePositionUm`: divide by the conversion factor and
send `PR<value>`; no limit comparison occurs on this path. -/
def SetRelativePositionUm (s : NewportZStage) (pos : ℚ) (p : SerialPort) :
    Int × SerialPort :=
  let pos' := pos / s.conversionFactor_
  let r := SendSerialCommand (MakeCommand s "PR" ++ ratStr pos') p
  if r.1 ≠ DEVICE_OK then (r.1, r.2) else (DEVICE_OK, r.2)

/-- `NewportZStage::GetPositionUm`: send `PA?`, read a line, `atof` it and
multiply by the conversion factor.  `pos0` is the caller's value of the `pos`
out-parameter, returned unchanged on the early transport-failure paths. -/
def GetPositionUm (s : NewportZStage) (pos0 : ℚ) (p : SerialPort) :
    Int × ℚ × SerialPort :=
  let r1 := SendSerialCommand (MakeCommand s "PA?") p
  if r1.1 ≠ DEVICE_OK then (r1.1, pos0, r1.2)
  else
    let r2 := GetSerialAnswer r1.2
    if r2.1 ≠ DEVICE_OK then (r2.1, pos0, r2.2.2)
    else (DEVICE_OK, atof r2.2.1 * s.conversionFactor_, r2.2.2)

/-- `NewportZStage::SetVelocity`: send `VA<value>` and return the transport
result directly. -/
def SetVelocity (s : NewportZStage) (velocity : ℚ) (p : SerialPort) :
    Int × SerialPort :=
  SendSerialCommand (MakeCommand s "VA" ++ ratStr velocity) p

/-- `NewportZStage::GetVelocity`: send `VA?`, read a line, `atof` it.  On a
receive failure the source has `if (ret != DEVICE_OK) return DEVICE_OK;` —
the transport error is replaced by success and the out-parameter `vel0`
is left unchanged. -/
def GetVelocity (s : NewportZStage) (vel0 : ℚ) (p : SerialPort) :
    Int × ℚ × SerialPort :=
  let r1 := SendSerialCommand (MakeCommand s "VA?") p
  if r1.1 ≠ DEVICE_OK then (r1.1, vel0, r1.2)
  else
    let r2 := GetSerialAnswer r1.2
    if r2.1 ≠ DEVICE_OK then (DEVICE_OK, vel0, r2.2.2)
    else (DEVICE_OK, atof r2.2.1, r2.2.2)

/-- `NewportZStage::GetError`: send `TE`, read a line, inspect the character
after the echoed command: `@` means no error, `H` means not homed — then
`SetOrigin()` and a recursive `GetError` (the source comment reads
"dangeroud! recursive call"); anything else is a controller fault.  `err0`
and `code0` are the caller's values of the two out-parameters, visible when a
transport failure returns early.  The recursion consumes serial replies, not
structure, so the model takes fuel; `none` is fuel exhaustion. -/
def GetError (s : NewportZStage) (err0 : Bool) (code0 : String) (fuel : Nat)
    (p : SerialPort) : Option (Int × Bool × String × SerialPort) :=
  match fuel with
  | 0 => none
  | fuel + 1 =>
    let cmd := MakeCommand s "TE"
    let r1 := SendSerialCommand cmd p
    if r1.1 ≠ DEVICE_OK then some (r1.1, err0, code0, r1.2)
    else
      let r2 := GetSerialAnswer r1.2
      if r2.1 ≠ DEVICE_OK then some (r2.1, err0, code0, r2.2.2)
      else
        let ec := substrAfter r2.2.1 cmd
        if ec = "@" then some (DEVICE_OK, false, ec, r2.2.2)
        else if ec = "H" then
          match SetOrigin s fuel r2.2.2 with
          | none => none
          | some r3 =>
            if r3.1 ≠ DEVICE_OK then some (r3.1, true, ec, r3.2)
            else GetError s true ec fuel r3.2
        else some (CONTROLLER_ERROR, true, ec, r2.2.2)

/-- Modelled from the spec: the host-side sink and callbacks consumed by the
camera (`InsertImage`, `ClearImageBuffer`, `PrepareForAcq`, `AcqFinished`).
`insertRes` scripts the result of the k-th `InsertImage` call; `insertCalls`
counts those calls; `inserted` logs `(frame counter, channel)` per call;
`clears`, `prepared` and `acqFinished` count the corresponding notifications. -/
structure Host where
  insertRes : Nat → Int
  insertCalls : Nat
  clears : Nat
  inserted : List (Int × Nat)
  prepared : Nat
  acqFinished : Nat

/-- State of one `FakeCamera` instance together with its `LiveThread` fields
(`running_`, `stopRunning_`, `imageCounter_`, `numImages_`); the worker and the
host-facing calls are modelled sequentially on this one state. -/
structure CamState where
  channels_ : Nat
  frameCount_ : Int
  startTime_ : ℚ
  running_ : Bool
  stopRunning_ : Bool
  imageCounter_ : Int
  numImages_ : Int

/-- `FakeCamera::SnapImage`: increments `frameCount_`, performs the (no-op)
`getImg()` and always returns `DEVICE_OK`. -/
def SnapImage (c : CamState) : Int × CamState :=
  (DEVICE_OK, { c with frameCount_ := c.frameCount_ + 1 })

/-- `FakeCamera::IsCapturing`, i.e. `LiveThread::IsRunning`. -/
def IsCapturing (c : CamState) : Bool := c.running_

/-- `FakeCamera::StopSequenceAcquisition`: `LiveThread::Abort` raises the
cancellation flag (the `wait()` join is elided in this sequential model) and the
host is notified via `AcqFinished`. -/
def StopSequenceAcquisition (c : CamState) (h : Host) : Int × CamState × Host :=
  (DEVICE_OK, { c with stopRunning_ := true },
    { h with acqFinished := h.acqFinished + 1 })

/-- `FakeCamera::StartSequenceAcquisition`: refuse when already capturing,
otherwise notify `PrepareForAcq`, store the requested count and the start time,
and activate the worker (the spawned `svc` is the separate function below). -/
def StartSequenceAcquisition (c : CamState) (numImages : Int)
    (interval_ms : ℚ) (stopOnOverflow : Bool) (now : ℚ) (h : Host) :
    Int × CamState × Host :=
  if IsCapturing c then (DEVICE_CAMERA_BUSY_ACQUIRING, c, h)
  else
    (DEVICE_OK, { c with numImages_ := numImages, startTime_ := now },
      { h with prepared := h.prepared + 1 })

/-- Per-frame channel loop of `LiveThread::svc` (`for i < channels`): insert the
channel; on `DEVICE_BUFFER_OVERFLOW` clear the host buffer and retry the same
insertion once, with the retry's return value discarded, then continue with the
next channel; on any other non-success result `break` out of this loop. -/
def insertChannels (counter : Int) : Nat → Nat → Host → Host
  | _, 0, h => h
  | i, rem + 1, h =>
    let ret := h.insertRes h.insertCalls
    let h1 : Host := { h with insertCalls := h.insertCalls + 1,
                              inserted := h.inserted ++ [(counter, i)] }
    if ret = DEVICE_BUFFER_OVERFLOW then
      let h2 : Host := { h1 with clears := h1.clears + 1 }
      let h3 : Host := { h2 with insertCalls := h2.insertCalls + 1,
                                 inserted := h2.inserted ++ [(counter, i)] }
      insertChannels counter (i + 1) rem h3
    else if ret ≠ DEVICE_OK then h1
    else insertChannels counter (i + 1) rem h1

/-- Body of the `while (true)` loop of `LiveThread::svc`: check the cancellation
flag, snap, insert every channel, increment `imageCounter_` and, when the
requested count is reached, call `StopSequenceAcquisition` (observed at the next
flag check).  The C++ loop is unbounded, so the model takes fuel; `none` means
the loop is still running when the fuel runs out. -/
def svcLoop (fuel : Nat) (c : CamState) (h : Host) : Option (CamState × Host) :=
  match fuel with
  | 0 => none
  | fuel + 1 =>
    if c.stopRunning_ then some ({ c with running_ := false }, h)
    else
      let r := SnapImage c
      if r.1 ≠ DEVICE_OK then some ({ r.2 with running_ := false }, h)
      else
        let h1 := insertChannels r.2.imageCounter_ 0 r.2.channels_ h
        let c2 : CamState := { r.2 with imageCounter_ := r.2.imageCounter_ + 1 }
        if c2.numImages_ ≥ 0 ∧ c2.imageCounter_ ≥ c2.numImages_ then
          let r3 := StopSequenceAcquisition c2 h1
          svcLoop fuel r3.2.1 r3.2.2
        else svcLoop fuel c2 h1

/-- `LiveThread::svc`: clear the cancellation flag, mark the worker running,
reset `imageCounter_` and enter the loop. -/
def svc (fuel : Nat) (c : CamState) (h : Host) : Option (CamState × Host) :=
  svcLoop fuel
    { c with stopRunning_ := false, running_ := true, imageCounter_ := 0 } h

/-- The stage configured as in the spec's worked example (and as the C++
constructor defaults): conversion factor 1000, native limits [-50, 50],
controller address 1. -/
def stageEx : NewportZStage :=
  { conversionFactor_ := 1000, lowerLimit_ := -50, upperLimit_ := 50,
    cAddress_ := 1, stepSizeUm_ := 1 }

/-- A port whose every exchange succeeds and answers the empty line. -/
def portOk : SerialPort := ⟨fun _ => (0, (0, "")), 0, []⟩

/-- A port whose every send fails with code `e` (receives would succeed). -/
def sendFailPort (e : Int) : SerialPort := ⟨fun _ => (e, (0, "")), 0, []⟩

/-- A port whose sends succeed and whose every receive fails with code `e`. -/
def recvFailPort (e : Int) : SerialPort := ⟨fun _ => (0, (e, "")), 0, []⟩

/-- When `atof` performs no conversion its result is exactly 0. -/
theorem atof_eq_zero_of_not_parses (a : String) (h : atofParses a = false) :
    atof a = 0 := by
  unfold atofParses at h
  unfold atof
  rw [Bool.not_eq_false'] at h
  simp [h]

/-- C5: `setPositionUm` converts the request by dividing by the conversion
factor and returns `PositionBeyondLimits` exactly when the converted value is
strictly outside the closed interval `[lowerLimit_, upperLimit_]`; when the
limit check fails no serial traffic occurs (the port is untouched).  The
hypothesis states that the transport layer never itself produces the
`ERR_POSITION_BEYOND_LIMITS` code. -/
theorem C5_setPositionUm_limit_check (s : NewportZStage) (pos : ℚ) (p : SerialPort)
    (hp : ∀ n, (p.behav n).1 ≠ ERR_POSITION_BEYOND_LIMITS) :
    ((SetPositionUm s pos p).1 = ERR_POSITION_BEYOND_LIMITS ↔
      (pos / s.conversionFactor_ > s.upperLimit_ ∨
       s.lowerLimit_ > pos / s.conversionFactor_)) ∧
    ((pos / s.conversionFactor_ > s.upperLimit_ ∨
      s.lowerLimit_ > pos / s.conversionFactor_) →
      (SetPositionUm s pos p).2 = p) := by
  have hne : DEVICE_OK ≠ ERR_POSITION_BEYOND_LIMITS := by
    unfold DEVICE_OK ERR_POSITION_BEYOND_LIMITS; omega
  by_cases hc : pos / s.conversionFactor_ > s.upperLimit_ ∨
      s.lowerLimit_ > pos / s.conversionFactor_
  · simp [SetPositionUm, hc]
  · by_cases hz : (p.behav p.k).1 = DEVICE_OK
    · simp [SetPositionUm, SendSerialCommand, hc, hz, hne]
    · simp [SetPositionUm, SendSerialCommand, hc, hz, hp p.k]

/-- Witness for C5 at the spec's example: limits [-50, 50] native, conversion
factor 1000; 50001 µm is rejected with no serial traffic, exactly 50000 µm
(the scaled boundary) is not rejected. -/
theorem C5_witness :
    (SetPositionUm stageEx 50001 portOk).1 = ERR_POSITION_BEYOND_LIMITS ∧
    (SetPositionUm stageEx 50001 portOk).2 = portOk ∧
    (SetPositionUm stageEx 50000 portOk).1 ≠ ERR_POSITION_BEYOND_LIMITS := by
  have hp : ∀ n, (portOk.behav n).1 ≠ ERR_POSITION_BEYOND_LIMITS := by
    intro n; unfold portOk ERR_POSITION_BEYOND_LIMITS; simp
  have h1 := C5_setPositionUm_limit_check stageEx 50001 portOk hp
  have h2 := C5_setPositionUm_limit_check stageEx 50000 portOk hp
  have hout : (50001 : ℚ) / stageEx.conversionFactor_ > stageEx.upperLimit_ ∨
      stageEx.lowerLimit_ > (50001 : ℚ) / stageEx.conversionFactor_ := by
    left; norm_num [stageEx]
  refine ⟨h1.1.mpr hout, h1.2 hout, fun heq => ?_⟩
  have := h2.1.mp heq
  rcases this with h | h <;> norm_num [stageEx] at h

/-- C7: `setRelativePositionUm` performs no limit comparison: it never returns
`PositionBeyondLimits` (granted a transport that does not produce that code
itself) and it always hands the `PR` command, with the delta divided by the
conversion factor, to the transport — even when the resulting target would lie
outside the configured limits. -/
theorem C7_setRelativePositionUm_no_limit_check (s : NewportZStage) (pos : ℚ)
    (p : SerialPort)
    (hp : ∀ n, (p.behav n).1 ≠ ERR_POSITION_BEYOND_LIMITS) :
    (SetRelativePositionUm s pos p).1 ≠ ERR_POSITION_BEYOND_LIMITS ∧
    (SetRelativePositionUm s pos p).2.sent =
      p.sent ++ [MakeCommand s "PR" ++ ratStr (pos / s.conversionFactor_)] := by
  have hne : DEVICE_OK ≠ ERR_POSITION_BEYOND_LIMITS := by
    unfold DEVICE_OK ERR_POSITION_BEYOND_LIMITS; omega
  by_cases hz : (p.behav p.k).1 = DEVICE_OK
  · simp [SetRelativePositionUm, SendSerialCommand, hz, hne]
  · simp [SetRelativePositionUm, SendSerialCommand, hz, hp p.k]

/-- Witness for C7: a relative move of 123456 µm (far beyond the ±50 mm limits
of `stageEx`) is not rejected and its `PR` command is sent. -/
theorem C7_witness :
    (SetRelativePositionUm stageEx 123456 portOk).1 ≠ ERR_POSITION_BEYOND_LIMITS ∧
    (SetRelativePositionUm stageEx 123456 portOk).2.sent =
      portOk.sent ++ [MakeCommand stageEx "PR" ++ ratStr ((123456 : ℚ) / stageEx.conversionFactor_)] :=
  C7_setRelativePositionUm_no_limit_check stageEx 123456 portOk
    (by intro n; unfold portOk ERR_POSITION_BEYOND_LIMITS; simp)

/-- C9: `getPositionUm` sends `PA?`, parses the leading numeric token of the
reply with `atof`, multiplies by `conversionFactor_` and returns that product
with success; when the reply carries no parseable number the returned position
is exactly 0 and the call still reports `DEVICE_OK`.  The hypotheses say the
two transport steps succeed. -/
theorem C9_getPositionUm_parse (s : NewportZStage) (pos0 : ℚ) (p : SerialPort)
    (h1 : (p.behav p.k).1 = DEVICE_OK)
    (h2 : (p.behav (p.k + 1)).2.1 = DEVICE_OK) :
    (GetPositionUm s pos0 p).1 = DEVICE_OK ∧
    (GetPositionUm s pos0 p).2.1 =
      atof ((p.behav (p.k + 1)).2.2) * s.conversionFactor_ ∧
    (GetPositionUm s pos0 p).2.2.sent = p.sent ++ [MakeCommand s "PA?"] ∧
    (atofParses ((p.behav (p.k + 1)).2.2) = false →
      (GetPositionUm s pos0 p).2.1 = 0) := by
  refine ⟨?_, ?_, ?_, ?_⟩ <;>
    simp [GetPositionUm, SendSerialCommand, GetSerialAnswer, h1, h2]
  intro hnp
  exact Or.inl (atof_eq_zero_of_not_parses _ hnp)

/-- A port whose single exchange succeeds and answers a reply whose leading
token is numeric and followed by further text. -/
def portC9 : SerialPort := ⟨fun _ => (0, (0, "  3.5 junk")), 0, []⟩

/-- A port whose single exchange succeeds and answers a non-numeric reply. -/
def portC9bad : SerialPort := ⟨fun _ => (0, (0, "qq")), 0, []⟩

/-- Witness for C9: on reply "  3.5 junk" the position is
`atof "  3.5 junk" * 1000` (= 3500), and on the non-numeric reply "qq" the
position is exactly 0 with the call still succeeding. -/
theorem C9_witness :
    (GetPositionUm stageEx 7 portC9).1 = DEVICE_OK ∧
    (GetPositionUm stageEx 7 portC9).2.1 =
      atof ((portC9.behav (portC9.k + 1)).2.2) * stageEx.conversionFactor_ ∧
    (GetPositionUm stageEx 7 portC9bad).2.1 = 0 ∧
    (GetPositionUm stageEx 7 portC9bad).1 = DEVICE_OK := by
  have ha := C9_getPositionUm_parse stageEx 7 portC9 rfl rfl
  have hb := C9_getPositionUm_parse stageEx 7 portC9bad rfl rfl
  exact ⟨ha.1, ha.2.1, hb.2.2.2 rfl, hb.1⟩

/-- The result port of `Busy` keeps the behaviour script of its argument. -/
theorem Busy_behav (s : NewportZStage) (p : SerialPort) :
    (Busy s p).2.behav = p.behav := by
  unfold Busy SendSerialCommand GetSerialAnswer
  by_cases hz : (p.behav p.k).1 = DEVICE_OK <;>
    by_cases hz2 : (p.behav (p.k + 1)).2.1 = DEVICE_OK <;>
    simp [hz, hz2]

/-- When every poll of `Busy` reports busy, `WaitForBusy` never returns, for
any amount of fuel. -/
theorem waitForBusy_always_busy (s : NewportZStage) (behav : Nat → Int × (Int × String))
    (hb : ∀ k sent, (Busy s ⟨behav, k, sent⟩).1 = true) :
    ∀ (fuel k : Nat) (sent : List String),
      WaitForBusy s fuel ⟨behav, k, sent⟩ = none := by
  intro fuel
  induction fuel with
  | zero => intro k sent; rfl
  | succ n ih =>
    intro k sent
    have hstep : WaitForBusy s (n + 1) ⟨behav, k, sent⟩ =
        if (Busy s ⟨behav, k, sent⟩).1 = true then
          WaitForBusy s n (Busy s ⟨behav, k, sent⟩).2
        else some (DEVICE_OK, (Busy s ⟨behav, k, sent⟩).2) := rfl
    have hb1 := hb k sent
    have hbv := Busy_behav s ⟨behav, k, sent⟩
    rcases hB : Busy s ⟨behav, k, sent⟩ with ⟨bflag, b2, k2, s2⟩
    rw [hB] at hb1 hbv
    simp only at hb1 hbv
    rw [hstep, hB]
    simp only [hb1, if_pos rfl]
    subst hbv
    exact ih k2 s2

/-- C10: a transport failure inside `Busy()` is coerced through the `bool`
return type, so the stage reports busy on every nonzero transport error, on the
send step and on the receive step alike; consequently `WaitForBusy` (the
busy-poll of `waitUntilReady`) polls forever — for every fuel bound it is still
polling — as long as the transport failure persists. -/
theorem C10_busy_error_coercion (s : NewportZStage) (e : Int) (he : e ≠ 0)
    (fuel : Nat) :
    (Busy s (sendFailPort e)).1 = true ∧
    (Busy s (recvFailPort e)).1 = true ∧
    WaitForBusy s fuel (sendFailPort e) = none ∧
    WaitForBusy s fuel (recvFailPort e) = none := by
  have hsend : ∀ k sent, (Busy s ⟨(sendFailPort e).behav, k, sent⟩).1 = true := by
    intro k sent
    simp [Busy, SendSerialCommand, GetSerialAnswer, sendFailPort, DEVICE_OK, he]
  have hrecv : ∀ k sent, (Busy s ⟨(recvFailPort e).behav, k, sent⟩).1 = true := by
    intro k sent
    simp [Busy, SendSerialCommand, GetSerialAnswer, recvFailPort, DEVICE_OK, he]
  exact ⟨hsend 0 [], hrecv 0 [],
    waitForBusy_always_busy s _ hsend fuel 0 [],
    waitForBusy_always_busy s _ hrecv fuel 0 []⟩

/-- Witness for C10 at transport error 7 and fuel 5. -/
theorem C10_witness :
    (Busy stageEx (sendFailPort 7)).1 = true ∧
    (Busy stageEx (recvFailPort 7)).1 = true ∧
    WaitForBusy stageEx 5 (sendFailPort 7) = none ∧
    WaitForBusy stageEx 5 (recvFailPort 7) = none :=
  C10_busy_error_coercion stageEx 7 (by omega) 5

/-- Counterexample to C6: `getVelocity`'s receive step fails with transport
error 7, yet the call returns `DEVICE_OK` — the transport error is replaced by
a success result, contradicting "the transport error code is returned to the
caller unchanged, never replaced by a success result". -/
theorem C6_counterexample :
    (recvFailPort 7).behav 1 = (0, (7, "")) ∧
    (GetVelocity stageEx 5 (recvFailPort 7)).1 = DEVICE_OK := by
  constructor <;> rfl

/-- C6 as amended: a transport failure aborts the operation and the error code
propagates unchanged for `setPositionUm` (within limits), `setRelativePositionUm`,
`setVelocity`, `getPositionUm` (both steps), `getError` (both steps) and
`getVelocity`'s send step — but `getVelocity`'s receive-step failure is
swallowed (the call returns `DEVICE_OK` with the velocity out-parameter
unchanged), and `isBusy`'s `bool` return type coerces the nonzero code to
`true` rather than returning it. -/
theorem C6_amended_transport_propagation (s : NewportZStage) (e : Int)
    (pos pos0 vel : ℚ) (he : e ≠ 0)
    (hin : ¬(pos / s.conversionFactor_ > s.upperLimit_ ∨
             s.lowerLimit_ > pos / s.conversionFactor_)) :
    (SetPositionUm s pos (sendFailPort e)).1 = e ∧
    (SetRelativePositionUm s pos (sendFailPort e)).1 = e ∧
    (SetVelocity s vel (sendFailPort e)).1 = e ∧
    (GetPositionUm s pos0 (sendFailPort e)).1 = e ∧
    (GetPositionUm s pos0 (recvFailPort e)).1 = e ∧
    (GetVelocity s vel (sendFailPort e)).1 = e ∧
    (GetError s true "" 1 (sendFailPort e)).map Prod.fst = some e ∧
    (GetError s true "" 1 (recvFailPort e)).map Prod.fst = some e ∧
    (GetVelocity s vel (recvFailPort e)).1 = DEVICE_OK ∧
    (GetVelocity s vel (recvFailPort e)).2.1 = vel ∧
    (Busy s (sendFailPort e)).1 = true := by
  refine ⟨?_, ?_, ?_, ?_, ?_, ?_, ?_, ?_, ?_, ?_, ?_⟩ <;>
    simp [SetPositionUm, SetRelativePositionUm, SetVelocity, GetPositionUm,
      GetVelocity, GetError, Busy, SendSerialCommand, GetSerialAnswer,
      sendFailPort, recvFailPort, DEVICE_OK, he, hin]

/-- Witness for C6 amended, at transport error 7 and an in-limit move. -/
theorem C6_amended_witness :
    (SetPositionUm stageEx 100 (sendFailPort 7)).1 = 7 ∧
    (GetVelocity stageEx 5 (sendFailPort 7)).1 = 7 ∧
    (GetVelocity stageEx 5 (recvFailPort 7)).1 = DEVICE_OK ∧
    (Busy stageEx (sendFailPort 7)).1 = true := by
  have h := C6_amended_transport_propagation stageEx 7 100 0 5 (by omega)
    (by norm_num [stageEx])
  exact ⟨h.1, h.2.2.2.2.2.1, h.2.2.2.2.2.2.2.2.1, h.2.2.2.2.2.2.2.2.2.2⟩

/-- Reply script refuting C3: the first two `TE` queries answer `1TEH`
("not homed"), status polls answer "0" (not busy), the third `TE` answers
`1TE@` (no error). -/
def lineHH (n : Nat) : String :=
  if n = 1 ∨ n = 6 then "1TEH" else if n = 11 then "1TE@" else "0"

/-- Port running the `lineHH` script, every transport step succeeding. -/
def portHH : SerialPort := ⟨fun n => (0, (0, lineHH n)), 0, []⟩

/-- Counterexample to C3: on a reply stream whose retried `getError` is
answered `'H'` again, `getError` recurses a second time — the final command log
contains three `TE` queries and two `OR` (home) commands, not "exactly one
home() call and exactly one retried getError()". -/
theorem C3_counterexample :
    (GetError stageEx true "" 10 portHH).map
        (fun t => (t.1, t.2.2.2.sent)) =
      some (DEVICE_OK,
        ["1TE", "1OR", "1TS", "1TE", "1OR", "1TS", "1TE"]) ∧
    (GetError stageEx true "" 10 portHH).map
        (fun t => (t.2.2.2.sent.count "1OR", t.2.2.2.sent.count "1TE")) =
      some (2, 3) := by
  constructor <;> rfl

/-- Behaviour of a controller that forever replies `1TEH`: every exchange
succeeds, every reply line is `1TEH` (whose first character '1' also reads as
"not busy" for the `TS` poll). -/
def constH : Nat → Int × (Int × String) := fun _ => (0, (0, "1TEH"))

/-- Port running the perpetual-`H` behaviour. -/
def portConstH : SerialPort := ⟨constH, 0, []⟩

/-- On a controller that always replies `ans` where `ans` reads as `'H'` after
the echoed `TE` command and as not-busy for the `TS` poll, `GetError` consumes
fuel forever: each `'H'` reply triggers one home and one further recursive
`getError`, with no bound. -/
theorem getError_allH_diverges (s : NewportZStage) (ans : String)
    (hH : substrAfter ans (MakeCommand s "TE") = "H")
    (hnb : ((ans.data.headD (Char.ofNat 0)).toNat &&& 4) = 0) :
    ∀ (fuel : Nat) (e : Bool) (c : String) (k : Nat) (sent : List String),
      GetError s e c fuel ⟨fun _ => (0, (0, ans)), k, sent⟩ = none := by
  have hne1 : ("H" : String) ≠ "@" := by decide
  intro fuel
  induction fuel with
  | zero => intro e c k sent; rfl
  | succ g ih =>
    intro e c k sent
    rw [GetError.eq_def]
    cases g with
    | zero =>
      simp [SendSerialCommand, GetSerialAnswer, SetOrigin, WaitForBusy,
        DEVICE_OK, hH, hne1]
    | succ m =>
      have hnb' : (ans.data.head?.getD (Char.ofNat 0)).toNat &&& 4 = 0 := by
        simpa using hnb
      simp [SendSerialCommand, GetSerialAnswer, SetOrigin, WaitForBusy, Busy,
        DEVICE_OK, hH, hne1, hnb']
      apply ih

/-- C3 as amended: `getError` on an `'H'` reply performs one `home()` and then
retries `getError` by an unbounded recursive call — a fresh `'H'` answer
triggers another home and retry, so on a controller that forever replies
`1TEH` (whose status poll also reads not-busy) `getError` never returns:
for every fuel bound the computation is still running. -/
theorem C3_amended_getError_unbounded (fuel : Nat) :
    GetError stageEx true "" fuel portConstH = none :=
  getError_allH_diverges stageEx "1TEH" (by rfl) (by rfl) fuel true "" 0 []

/-- C8: starting the engine while the worker is running returns the busy code
immediately and leaves everything untouched — the camera state (frame counter,
requested count, start time, running worker) and the host (no `PrepareForAcq`)
are exactly as before. -/
theorem C8_start_while_running_busy (c : CamState) (h : Host) (numImages : Int)
    (interval_ms : ℚ) (stopOnOverflow : Bool) (now : ℚ)
    (hrun : c.running_ = true) :
    StartSequenceAcquisition c numImages interval_ms stopOnOverflow now h =
      (DEVICE_CAMERA_BUSY_ACQUIRING, c, h) := by
  simp [StartSequenceAcquisition, IsCapturing, hrun]

/-- A camera mid-session: worker running, 2 channels, 17 frames delivered of
100 requested, start time 3. -/
def camRunning : CamState :=
  { channels_ := 2, frameCount_ := 17, startTime_ := 3, running_ := true,
    stopRunning_ := false, imageCounter_ := 17, numImages_ := 100 }

/-- A host sink that accepts every insertion. -/
def hostOkAll : Host :=
  { insertRes := fun _ => 0, insertCalls := 0, clears := 0, inserted := [],
    prepared := 0, acqFinished := 0 }

/-- Witness for C8: a second `start` against the running session of
`camRunning` returns the busy code with camera and host unchanged. -/
theorem C8_witness :
    StartSequenceAcquisition camRunning 7 0 false 99 hostOkAll =
      (DEVICE_CAMERA_BUSY_ACQUIRING, camRunning, hostOkAll) :=
  C8_start_while_running_busy camRunning hostOkAll 7 0 false 99 rfl

/-- A 2-channel camera about to run a 3-frame session. -/
def camC1 : CamState :=
  { channels_ := 2, frameCount_ := 0, startTime_ := 0, running_ := true,
    stopRunning_ := false, imageCounter_ := 0, numImages_ := 3 }

/-- A sink whose first insertion reports buffer-full and whose retry of that
same insertion fails with the plain error 11; every later insertion succeeds. -/
def hostC1 : Host :=
  { insertRes := fun n => if n = 0 then 22 else if n = 1 then 11 else 0,
    insertCalls := 0, clears := 0, inserted := [], prepared := 0,
    acqFinished := 0 }

/-- Counterexample to C1: the first insertion overflows, the buffer is cleared
once and the retry (call 1) fails with 11 — yet the loop does not terminate: it
goes on to deliver all 3 frames (7 insertions in total) and ends by reaching
the requested count, because the retry's return value is discarded. -/
theorem C1_counterexample :
    hostC1.insertRes 0 = DEVICE_BUFFER_OVERFLOW ∧
    hostC1.insertRes 1 = 11 ∧
    (svc 5 camC1 hostC1).map
        (fun r => (r.1.imageCounter_, r.1.running_, r.2.clears, r.2.insertCalls)) =
      some (3, false, 1, 7) := by
  refine ⟨rfl, rfl, ?_⟩
  rfl

/-- C1 as amended: a buffer-full insertion triggers exactly one buffer-clear
and exactly one retry of the same insertion, after which the loop continues
with the next channel unconditionally — the retry's result is discarded, so
even a failing retry does not terminate the loop.  (The right-hand side does
not depend on the retry's scripted result at all.) -/
theorem C1_amended_overflow_clear_retry_continue (counter : Int) (i rem : Nat)
    (h : Host) (hov : h.insertRes h.insertCalls = DEVICE_BUFFER_OVERFLOW) :
    insertChannels counter i (rem + 1) h =
      insertChannels counter (i + 1) rem
        { h with insertCalls := h.insertCalls + 1 + 1,
                 clears := h.clears + 1,
                 inserted := (h.inserted ++ [(counter, i)]) ++ [(counter, i)] } := by
  simp [insertChannels, hov]

/-- Witness for C1 amended at `hostC1`, whose pending insertion overflows. -/
theorem C1_amended_witness :
    insertChannels 0 0 1 hostC1 =
      insertChannels 0 1 0
        { hostC1 with insertCalls := 2, clears := 1,
                      inserted := [(0, 0), (0, 0)] } :=
  C1_amended_overflow_clear_retry_continue 0 0 0 hostC1 rfl

/-- A 2-channel camera about to run a 2-frame session. -/
def camC2 : CamState :=
  { channels_ := 2, frameCount_ := 0, startTime_ := 0, running_ := true,
    stopRunning_ := false, imageCounter_ := 0, numImages_ := 2 }

/-- A sink whose very first insertion fails with the plain error 11 (neither
success nor buffer-full); every later insertion succeeds. -/
def hostC2 : Host :=
  { insertRes := fun n => if n = 0 then 11 else 0,
    insertCalls := 0, clears := 0, inserted := [], prepared := 0,
    acqFinished := 0 }

/-- Counterexample to C2: the first insertion of frame 0 fails with the plain
error 11, which the claim says is fatal to the whole acquisition loop — but the
`break` only leaves the per-channel loop: a second frame is captured
(`frameCount_ = 2`) and fully delivered (insertions 1 and 2), and the session
ends by reaching the requested count of 2, not by the error. -/
theorem C2_counterexample :
    hostC2.insertRes 0 = 11 ∧
    (svc 4 camC2 hostC2).map
        (fun r => (r.1.imageCounter_, r.1.frameCount_, r.1.running_, r.2.insertCalls)) =
      some (2, 2, false, 3) := by
  refine ⟨rfl, ?_⟩
  rfl

/-- C2 as amended: an insertion result other than success and buffer-full
terminates only the per-channel insertion loop of the current frame (its
remaining channels are skipped after the single failing call), while the outer
acquisition loop goes on: the frame still counts and the loop body recurses on
the next frame. -/
theorem C2_amended_insert_error_breaks_channel_loop_only (f : Nat) (c : CamState)
    (h : Host) (hstop : c.stopRunning_ = false)
    (he1 : h.insertRes h.insertCalls ≠ DEVICE_OK)
    (he2 : h.insertRes h.insertCalls ≠ DEVICE_BUFFER_OVERFLOW)
    (hch : c.channels_ ≠ 0)
    (hcont : ¬(c.numImages_ ≥ 0 ∧ c.imageCounter_ + 1 ≥ c.numImages_)) :
    svcLoop (f + 1) c h =
      svcLoop f
        { c with frameCount_ := c.frameCount_ + 1,
                 imageCounter_ := c.imageCounter_ + 1 }
        { h with insertCalls := h.insertCalls + 1,
                 inserted := h.inserted ++ [(c.imageCounter_, 0)] } := by
  obtain ⟨m, hm⟩ := Nat.exists_eq_succ_of_ne_zero hch
  have he1' : h.insertRes h.insertCalls ≠ 0 := by simpa [DEVICE_OK] using he1
  rw [svcLoop.eq_def]
  simp [hstop, SnapImage, DEVICE_OK, hm, insertChannels, he1', he2, hcont]

/-- A 2-channel camera with an unbounded session request (`numImages_ = -1`). -/
def camC2b : CamState :=
  { channels_ := 2, frameCount_ := 0, startTime_ := 0, running_ := true,
    stopRunning_ := false, imageCounter_ := 0, numImages_ := -1 }

/-- Witness for C2 amended: after the failing first insertion the loop body
recurses on the next frame with exactly one insertion recorded for frame 0. -/
theorem C2_amended_witness :
    svcLoop 2 camC2b hostC2 =
      svcLoop 1
        { camC2b with frameCount_ := 1, imageCounter_ := 1 }
        { hostC2 with insertCalls := 1, inserted := [(0, 0)] } :=
  C2_amended_insert_error_breaks_channel_loop_only 1 camC2b hostC2 rfl
    (by decide) (by decide) (by decide) (by decide)

/-- A 1-channel camera asked for zero frames (`numImages_ = 0`). -/
def camC4 : CamState :=
  { channels_ := 1, frameCount_ := 0, startTime_ := 0, running_ := true,
    stopRunning_ := false, imageCounter_ := 0, numImages_ := 0 }

/-- Counterexample to C4: with `requestedCount = 0` the loop still captures and
delivers one frame before the count check runs (the check sits after the
capture), so exactly one frame — not zero — is delivered. -/
theorem C4_counterexample :
    camC4.numImages_ = 0 ∧
    (svc 2 camC4 hostOkAll).map
        (fun r => (r.1.imageCounter_, r.1.frameCount_, r.1.running_, r.2.insertCalls)) =
      some (1, 1, false, 1) := by
  refine ⟨rfl, ?_⟩
  rfl

/-- Per-call log `(frame counter, channel index)` produced by a run of the
channel loop that starts at channel `i` with `rem` channels to go and meets no
error. -/
def chanLog (counter : Int) : Nat → Nat → List (Int × Nat)
  | _, 0 => []
  | i, rem + 1 => (counter, i) :: chanLog counter (i + 1) rem

/-- When every insertion succeeds the channel loop records one call per
channel and touches nothing else. -/
theorem insertChannels_allok (counter : Int) :
    ∀ (rem i : Nat) (h : Host), (∀ n, h.insertRes n = DEVICE_OK) →
      insertChannels counter i rem h =
        { h with insertCalls := h.insertCalls + rem,
                 inserted := h.inserted ++ chanLog counter i rem } := by
  intro rem
  induction rem with
  | zero => intro i h hok; simp [insertChannels, chanLog]
  | succ m ih =>
    intro i h hok
    rw [insertChannels]
    rw [hok h.insertCalls]
    have h22 : ¬(DEVICE_OK = DEVICE_BUFFER_OVERFLOW) := by
      unfold DEVICE_OK DEVICE_BUFFER_OVERFLOW; omega
    rw [if_neg h22, if_neg (by simp)]
    have hok1 : ∀ n, (⟨h.insertRes, h.insertCalls + 1, h.clears,
        h.inserted ++ [(counter, i)], h.prepared, h.acqFinished⟩ : Host).insertRes n
        = DEVICE_OK := hok
    rw [ih (i + 1) _ hok1]
    simp only [Host.mk.injEq, List.append_assoc, List.singleton_append, chanLog,
      eq_self_iff_true, and_true, true_and]
    omega

/-- When every insertion succeeds and `d + 1` more frames are wanted, the loop
runs exactly `d + 1` more frames (one counter increment and one insertion per
channel each), requests its own stop, notifies `AcqFinished` once, and the
worker ends with `running_ = false`. -/
theorem svcLoop_allok_run :
    ∀ (d : Nat) (c : CamState) (h : Host),
      (∀ n, h.insertRes n = DEVICE_OK) →
      c.stopRunning_ = false →
      0 ≤ c.numImages_ →
      c.numImages_ = c.imageCounter_ + (d + 1 : Int) →
      (svcLoop (d + 2) c h).map
          (fun r => (r.1.imageCounter_, r.1.running_, r.1.stopRunning_,
                     r.1.frameCount_, r.2.insertCalls, r.2.clears,
                     r.2.acqFinished)) =
        some (c.numImages_, false, true, c.frameCount_ + (d + 1 : Int),
              h.insertCalls + (d + 1) * c.channels_, h.clears,
              h.acqFinished + 1) := by
  intro d
  induction d with
  | zero =>
    intro c h hok hstop hnn hcount
    rw [svcLoop.eq_def]
    simp only [hstop, SnapImage, DEVICE_OK]
    rw [insertChannels_allok c.imageCounter_ c.channels_ 0 h hok]
    simp only [Bool.false_eq_true, if_false, ne_eq, not_true_eq_false, ite_false]
    split_ifs with hc
    · simp only [StopSequenceAcquisition]
      rw [svcLoop.eq_def]
      simp [SnapImage]
      omega
    · exfalso; omega
  | succ d ih =>
    intro c h hok hstop hnn hcount
    rw [svcLoop.eq_def]
    simp only [hstop, SnapImage, DEVICE_OK]
    rw [insertChannels_allok c.imageCounter_ c.channels_ 0 h hok]
    simp only [Bool.false_eq_true, if_false, ne_eq, not_true_eq_false, ite_false]
    split_ifs with hc
    · exfalso
      push_cast at hcount
      omega
    · rw [ih { channels_ := c.channels_, frameCount_ := c.frameCount_ + 1,
               startTime_ := c.startTime_, running_ := c.running_,
               stopRunning_ := false, imageCounter_ := c.imageCounter_ + 1,
               numImages_ := c.numImages_ }
            { insertRes := h.insertRes, insertCalls := h.insertCalls + c.channels_,
              clears := h.clears,
              inserted := h.inserted ++ chanLog c.imageCounter_ 0 c.channels_,
              prepared := h.prepared, acqFinished := h.acqFinished }
            hok rfl hnn (by push_cast at hcount ⊢; omega)]
      have hm : (d + 1 + 1) * c.channels_ = (d + 1) * c.channels_ + c.channels_ := by
        ring
      simp only [Option.some.injEq, Prod.mk.injEq, eq_self_iff_true, true_and,
        and_true]
      exact ⟨by push_cast; omega, by omega⟩

/-- C4 as amended: for every requested count `n ≥ 1` (the check sits after the
capture, so `n = 0` still yields one frame — see the counterexample), when
every capture and insertion succeeds the worker delivers exactly `n` frames
(`n` counter increments, one insertion per channel per frame), then requests
its own stop (`stopRunning_`, one `AcqFinished` notification) and returns to
idle (`running_ = false`) without an external `stop()` call. -/
theorem C4_amended_svc_delivers_requested (c : CamState) (h : Host) (n : Int)
    (hn : 1 ≤ n) (hok : ∀ k, h.insertRes k = DEVICE_OK)
    (hnum : c.numImages_ = n) :
    (svc ((n - 1).toNat + 2) c h).map
        (fun r => (r.1.imageCounter_, r.1.running_, r.1.stopRunning_,
                   r.1.frameCount_, r.2.insertCalls, r.2.clears,
                   r.2.acqFinished)) =
      some (n, false, true, c.frameCount_ + n,
            h.insertCalls + n.toNat * c.channels_, h.clears,
            h.acqFinished + 1) := by
  unfold svc
  have H := svcLoop_allok_run (n - 1).toNat
      { c with stopRunning_ := false, running_ := true, imageCounter_ := 0 } h
      hok rfl (by simp [hnum]; omega) (by simp [hnum]; omega)
  rw [H]
  have ht : (n - 1).toNat + 1 = n.toNat := by omega
  simp only [Option.some.injEq, Prod.mk.injEq, eq_self_iff_true, true_and,
    and_true, hnum, ht]
  omega

/-- A 4-channel camera asked for 5 frames, as in the spec's worked example. -/
def camC4b : CamState :=
  { channels_ := 4, frameCount_ := 0, startTime_ := 0, running_ := true,
    stopRunning_ := false, imageCounter_ := 0, numImages_ := 5 }

/-- Witness for C4 amended at the spec's example `requestedCount = 5`: exactly
5 frames (20 insertions over 4 channels), self-stop, idle. -/
theorem C4_amended_witness :
    (svc 6 camC4b hostOkAll).map
        (fun r => (r.1.imageCounter_, r.1.running_, r.1.stopRunning_,
                   r.1.frameCount_, r.2.insertCalls, r.2.clears,
                   r.2.acqFinished)) =
      some (5, false, true, 5, 20, 0, 1) := by
  have H := C4_amended_svc_delivers_requested camC4b hostOkAll 5 (by omega)
    (fun k => rfl) rfl
  exact H

/-- Witness for C3 amended at fuel 12: still no result on the perpetual-`H`
controller. -/
theorem C3_amended_witness :
    GetError stageEx true "" 12 portConstH = none :=
  C3_amended_getError_unbounded 12
